import Mathlib

/-!
Shallow embedding of src/Frontend/src/store/useModelStore.ts.

The store keeps a list of model entries (the runtime objects of the
JavaScript array, so an entry may carry an apiKey property even though
the TypeScript type StoredModel omits it) and an activeId string.
Each of the four operations may first await a call to the external
credential service (kmsService); a rejected call propagates and the
state mutation that follows it in the source is never executed.

The credential service is modelled by an oracle kms : KmsCall -> Bool
telling which calls resolve (true) and which reject (false).  Each
operation returns an OpOutcome: the store state after the call, the
ordered list of credential calls it attempted, and whether it resolved
(ok = true) or propagated a rejection (ok = false).
-/

namespace ModelStore

/-- A stored model entry, as the JavaScript runtime object in the
models array.  isCustom is false when the property is absent or false;
apiKey is none when the property is absent (the TypeScript type
StoredModel = Omit of Model minus apiKey declares it always absent,
but the runtime merge in updateModel can introduce it). -/
structure StoredModel where
  id : String
  name : String
  provider : String
  requiresApiKey : Bool
  isCustom : Bool
  apiKey : Option String
deriving DecidableEq, Repr

/-- A full Model, the input type of addModel (types.ts Model): a
stored model descriptor optionally carrying a transient apiKey. -/
structure Model where
  id : String
  name : String
  provider : String
  requiresApiKey : Bool
  isCustom : Bool
  apiKey : Option String
deriving DecidableEq, Repr

/-- Partial Model, the updates argument of updateModel: each field is
some v when the key is present in the updates object (JavaScript key
presence) and none when absent. -/
structure ModelUpdates where
  id : Option String := none
  name : Option String := none
  provider : Option String := none
  requiresApiKey : Option Bool := none
  isCustom : Option Bool := none
  apiKey : Option String := none
deriving DecidableEq, Repr

/-- A call to the external credential service kmsService. -/
inductive KmsCall where
  | store (providerName apiKey : String)
  | delete (providerName : String)
deriving DecidableEq, Repr

/-- The persisted store state: models array plus activeId. -/
structure ModelState where
  models : List StoredModel
  activeId : String
deriving DecidableEq, Repr

/-- Result of one operation: the store state afterwards (unchanged
when a credential call rejected, because the set() after the await is
never reached), the credential calls attempted in order, and whether
the returned promise resolved. -/
structure OpOutcome where
  state : ModelState
  calls : List KmsCall
  ok : Bool
deriving DecidableEq, Repr

/-- DEFAULT_MODELS from the source: the single built-in default entry
(id "default", provider "default", requiresApiKey false; isCustom and
apiKey properties absent). -/
def DEFAULT_MODELS : List StoredModel :=
  [{ id := "default", name := "default", provider := "default",
     requiresApiKey := false, isCustom := false, apiKey := none }]

/-- Initial store state: models = DEFAULT_MODELS, activeId =
DEFAULT_MODELS[0].id. -/
def initialState : ModelState :=
  { models := DEFAULT_MODELS, activeId := "default" }

/-- The destructuring const (apiKey, ...safeModel) = model in
addModel: the input with the apiKey property removed. -/
def stripApiKey (model : Model) : StoredModel :=
  { id := model.id, name := model.name, provider := model.provider,
    requiresApiKey := model.requiresApiKey, isCustom := model.isCustom,
    apiKey := none }

/-- addModel(model) (source lines 36-51): if apiKey is truthy and
model.provider is truthy, await storeAPIKey(provider, apiKey); then
append (...safeModel, isCustom: true) to models and set activeId to
model.id. -/
def addModel (kms : KmsCall → Bool) (st : ModelState) (model : Model) : OpOutcome :=
  let committed : ModelState :=
    { models := st.models ++ [{ stripApiKey model with isCustom := true }],
      activeId := model.id }
  match model.apiKey with
  | some key =>
      if key ≠ "" ∧ model.provider ≠ "" then
        let c := KmsCall.store model.provider key
        if kms c then { state := committed, calls := [c], ok := true }
        else { state := st, calls := [c], ok := false }
      else { state := committed, calls := [], ok := true }
  | none => { state := committed, calls := [], ok := true }

/-- The JavaScript object spread ( ...m, ...updates ): every key
present in updates overwrites the corresponding property of m,
including apiKey. -/
def applyUpdates (m : StoredModel) (u : ModelUpdates) : StoredModel :=
  { id := u.id.getD m.id, name := u.name.getD m.name,
    provider := u.provider.getD m.provider,
    requiresApiKey := u.requiresApiKey.getD m.requiresApiKey,
    isCustom := u.isCustom.getD m.isCustom,
    apiKey := match u.apiKey with | some v => some v | none => m.apiKey }

/-- updateModel(id, updates) (source lines 54-70): if the apiKey key
is present in updates and updates.provider is truthy, await
storeAPIKey when the apiKey value is truthy, else deleteAPIKey; then
map over models merging updates into the entry whose id matches. -/
def updateModel (kms : KmsCall → Bool) (st : ModelState) (id : String)
    (u : ModelUpdates) : OpOutcome :=
  let committed : ModelState :=
    { models := st.models.map (fun m => if m.id = id then applyUpdates m u else m),
      activeId := st.activeId }
  match u.apiKey, u.provider with
  | some key, some p =>
      if p ≠ "" then
        let c := if key ≠ "" then KmsCall.store p key else KmsCall.delete p
        if kms c then { state := committed, calls := [c], ok := true }
        else { state := st, calls := [c], ok := false }
      else { state := committed, calls := [], ok := true }
  | some _, none => { state := committed, calls := [], ok := true }
  | none, _ => { state := committed, calls := [], ok := true }

/-- The branch condition of setActive (source line 78): the entry
found for the requested id has provider "default", the entry found for
the current activeId has a truthy isCustom, and that previous entry
has a truthy provider.  Returns the previous entry when the cascade
fires, none otherwise. -/
def cascadeTarget (st : ModelState) (id : String) : Option StoredModel :=
  match st.models.find? (fun m => m.id = id),
        st.models.find? (fun m => m.id = st.activeId) with
  | some n, some p =>
      if n.provider = "default" ∧ p.isCustom = true ∧ p.provider ≠ "" then some p
      else none
  | _, _ => none

/-- setActive(id) (source lines 73-89): look up previousModel (entry
matching activeId) and newModel (entry matching id); if switching to
the default provider from a custom model with a truthy provider, await
deleteAPIKey(previousModel.provider) and on success filter out every
entry with previousModel.id and set activeId = id; otherwise just set
activeId = id. -/
def setActive (kms : KmsCall → Bool) (st : ModelState) (id : String) : OpOutcome :=
  match cascadeTarget st id with
  | some p =>
      let c := KmsCall.delete p.provider
      if kms c then
        { state := { models := st.models.filter (fun m => m.id ≠ p.id),
                     activeId := id },
          calls := [c], ok := true }
      else { state := st, calls := [c], ok := false }
  | none =>
      { state := { models := st.models, activeId := id }, calls := [], ok := true }

/-- removeModel(id) (source lines 92-105): find the entry matching id;
if it exists and its provider is truthy, await deleteAPIKey(provider);
then filter the entry out and, when activeId === id, fall back to
state.models[0]?.id || "" computed from the PRE-removal models array
(this is exactly what the source evaluates inside set()). -/
def removeModel (kms : KmsCall → Bool) (st : ModelState) (id : String) : OpOutcome :=
  let committed : ModelState :=
    { models := st.models.filter (fun m => m.id ≠ id),
      activeId :=
        if st.activeId = id then
          match st.models.head? with
          | some m => if m.id = "" then "" else m.id
          | none => ""
        else st.activeId }
  match st.models.find? (fun m => m.id = id) with
  | some m =>
      if m.provider ≠ "" then
        let c := KmsCall.delete m.provider
        if kms c then { state := committed, calls := [c], ok := true }
        else { state := st, calls := [c], ok := false }
      else { state := committed, calls := [], ok := true }
  | none => { state := committed, calls := [], ok := true }

/-- Spec invariant: activeId is the id of some entry in models, or ""
when models is empty. -/
def activeIdOk (st : ModelState) : Prop :=
  (∃ m ∈ st.models, m.id = st.activeId) ∨ (st.models = [] ∧ st.activeId = "")

instance (st : ModelState) : Decidable (activeIdOk st) := by
  unfold activeIdOk
  infer_instance

/-- Spec invariant: all entry ids in models are pairwise distinct. -/
def uniqueIds (st : ModelState) : Prop :=
  (st.models.map (fun m => m.id)).Nodup

instance (st : ModelState) : Decidable (uniqueIds st) := by
  unfold uniqueIds
  infer_instance

/-- A credential-service oracle on which every call resolves. -/
def kmsAccept : KmsCall → Bool := fun _ => true

/-- A credential-service oracle on which every call rejects. -/
def kmsReject : KmsCall → Bool := fun _ => false

/-- Concrete entry A for the removal scenario of the spec (section 8,
fallback on removal). -/
def entryA : StoredModel :=
  { id := "A", name := "A", provider := "", requiresApiKey := false,
    isCustom := true, apiKey := none }

/-- Concrete entry B for the removal scenario of the spec. -/
def entryB : StoredModel :=
  { id := "B", name := "B", provider := "", requiresApiKey := false,
    isCustom := true, apiKey := none }

/-- State with models = [A, B] and activeId = "A". -/
def stateAB : ModelState := { models := [entryA, entryB], activeId := "A" }

/-- The custom gpt profile input from the end-to-end scenario of the
spec (section 8). -/
def gptModel : Model :=
  { id := "gpt", name := "GPT", provider := "openai", requiresApiKey := true,
    isCustom := false, apiKey := some "sk-123" }

/-- The stored form of the gpt profile: apiKey removed, isCustom true. -/
def gptStored : StoredModel :=
  { id := "gpt", name := "GPT", provider := "openai", requiresApiKey := true,
    isCustom := true, apiKey := none }

/-- The cascade scenario of the spec (section 8): models = [default,
gpt custom], activeId = "gpt". -/
def stateGpt : ModelState :=
  { models := DEFAULT_MODELS ++ [gptStored], activeId := "gpt" }

/-- A runtime-addable custom entry whose provider is the sentinel
"default": models with it active make the setActive self-cascade fire. -/
def customDefaultEntry : StoredModel :=
  { id := "x", name := "x", provider := "default", requiresApiKey := false,
    isCustom := true, apiKey := none }

/-- State whose active entry is a custom profile with provider
"default". -/
def stateSelfCascade : ModelState :=
  { models := [customDefaultEntry], activeId := "x" }

/-- An updates object carrying both a provider and an apiKey, as a UI
would pass when the user enters a key. -/
def leakUpdates : ModelUpdates :=
  { provider := some "openai", apiKey := some "sk-123" }

/-- An input profile whose id collides with the built-in default
entry. -/
def dupModel : Model :=
  { id := "default", name := "dup", provider := "", requiresApiKey := false,
    isCustom := false, apiKey := none }

/-- Claim C1: the claim states that after any updateModel merge the
matching entry still has no apiKey field.  The source merges the raw
updates object into the stored entry with an object spread, so the
apiKey value is written into the stored entry: starting from the
initial state, updateModel("default", (provider: "openai", apiKey:
"sk-123")) leaves the single stored entry carrying apiKey "sk-123".
This contradicts the declared entry type StoredModel = Omit of Model
minus apiKey and the stripping addModel performs, so it is a code bug,
witnessed here by evaluating the embedded code at the failing input. -/
theorem C1_updateModel_leaks_apiKey :
    ((updateModel kmsAccept initialState "default" leakUpdates).state.models.map
        (fun m => m.apiKey)) = [some "sk-123"]
      ∧ (updateModel kmsAccept initialState "default" leakUpdates).ok = true := by
  decide

/-- Claim C3: the claim states that removing the active entry of
models = [A, B] reassigns activeId to the first entry remaining after
the removal, "B".  The source computes the fallback from
state.models[0] of the PRE-removal array, so removeModel("A") on
(models = [A, B], activeId = "A") yields models = [B] but activeId =
"A", a dangling id.  This contradicts the source comment (fall back to
the first available model) and the spec, so it is a code bug,
witnessed here by evaluating the embedded code at the failing input. -/
theorem C3_removeModel_fallback_bug :
    (removeModel kmsAccept stateAB "A").state
      = { models := [entryB], activeId := "A" } := by
  decide

/-- Claim C2: for every state and every operation, if the credential
service call made by the operation rejects, the operation propagates
the rejection (its promise rejects exactly when an attempted call
rejected) and models and activeId are exactly the same after the
failed call as before it. -/
theorem C2_fail_closed (kms : KmsCall → Bool) (st : ModelState) :
    (∀ model, ((addModel kms st model).ok = false → (addModel kms st model).state = st)
        ∧ ((addModel kms st model).ok = false
            ↔ ∃ c ∈ (addModel kms st model).calls, kms c = false))
    ∧ (∀ id u, ((updateModel kms st id u).ok = false → (updateModel kms st id u).state = st)
        ∧ ((updateModel kms st id u).ok = false
            ↔ ∃ c ∈ (updateModel kms st id u).calls, kms c = false))
    ∧ (∀ id, ((setActive kms st id).ok = false → (setActive kms st id).state = st)
        ∧ ((setActive kms st id).ok = false
            ↔ ∃ c ∈ (setActive kms st id).calls, kms c = false))
    ∧ (∀ id, ((removeModel kms st id).ok = false → (removeModel kms st id).state = st)
        ∧ ((removeModel kms st id).ok = false
            ↔ ∃ c ∈ (removeModel kms st id).calls, kms c = false)) := by
  refine ⟨fun model => ?_, fun id u => ?_, fun id => ?_, fun id => ?_⟩
  · cases hk : model.apiKey with
    | none => simp [addModel, hk]
    | some key =>
      by_cases hc : key ≠ "" ∧ model.provider ≠ ""
      · by_cases hkms : kms (KmsCall.store model.provider key) = true
        · simp [addModel, hk, hc, hkms]
        · simp [addModel, hk, hc, hkms]
      · simp [addModel, hk, hc]
  · cases hk : u.apiKey with
    | none => simp [updateModel, hk]
    | some key =>
      cases hp : u.provider with
      | none => simp [updateModel, hk, hp]
      | some p =>
        by_cases hc : p ≠ ""
        · by_cases hkey : key = ""
          · by_cases hkms : kms (KmsCall.delete p) = true
            · simp [updateModel, hk, hp, hc, hkey, hkms]
            · simp [updateModel, hk, hp, hc, hkey, hkms]
          · by_cases hkms : kms (KmsCall.store p key) = true
            · simp [updateModel, hk, hp, hc, hkey, hkms]
            · simp [updateModel, hk, hp, hc, hkey, hkms]
        · simp [updateModel, hk, hp, hc]
  · cases hc : cascadeTarget st id with
    | none => simp [setActive, hc]
    | some p =>
      by_cases hkms : kms (KmsCall.delete p.provider) = true
      · simp [setActive, hc, hkms]
      · simp [setActive, hc, hkms]
  · cases hf : st.models.find? (fun m => m.id = id) with
    | none => simp [removeModel, hf]
    | some m =>
      by_cases hc : m.provider ≠ ""
      · by_cases hkms : kms (KmsCall.delete m.provider) = true
        · simp [removeModel, hf, hc, hkms]
        · simp [removeModel, hf, hc, hkms]
      · simp [removeModel, hf, hc]

/-- Witness for C2: a rejecting credential service makes addModel of
the gpt profile leave the initial state unchanged. -/
theorem C2_fail_closed_witness :
    (addModel kmsReject initialState gptModel).state = initialState :=
  ((C2_fail_closed kmsReject initialState).1 gptModel).1 (by decide)




/-- Claim C4: whenever the entry found for the requested id has
provider "default", the entry found for the current activeId has
isCustom true and a nonempty provider, setActive(id) attempts exactly
one credential deletion for the previous provider and on its success
removes the previous entry from models and sets activeId = id; in
every other case it only sets activeId = id, with no other state
change and no credential call. -/
theorem C4_setActive_cases (kms : KmsCall → Bool) (st : ModelState) (id : String) :
    (∀ n p, st.models.find? (fun m => m.id = id) = some n →
        st.models.find? (fun m => m.id = st.activeId) = some p →
        n.provider = "default" → p.isCustom = true → p.provider ≠ "" →
        (setActive kms st id).calls = [KmsCall.delete p.provider]
          ∧ (kms (KmsCall.delete p.provider) = true →
              (setActive kms st id).state
                  = { models := st.models.filter (fun m => m.id ≠ p.id), activeId := id }
                ∧ (setActive kms st id).ok = true))
    ∧ ((¬ ∃ n p, st.models.find? (fun m => m.id = id) = some n
            ∧ st.models.find? (fun m => m.id = st.activeId) = some p
            ∧ n.provider = "default" ∧ p.isCustom = true ∧ p.provider ≠ "") →
        setActive kms st id
          = { state := { models := st.models, activeId := id }, calls := [], ok := true }) := by
  constructor
  · intro n p hn hp h1 h2 h3
    have hc : cascadeTarget st id = some p := by
      simp [cascadeTarget, hn, hp, h1, h2, h3]
    by_cases hkms : kms (KmsCall.delete p.provider) = true
    · simp [setActive, hc, hkms]
    · simp [setActive, hc, hkms]
  · intro hno
    have hc : cascadeTarget st id = none := by
      unfold cascadeTarget
      cases hn : st.models.find? (fun m => m.id = id) with
      | none => rfl
      | some n =>
        cases hp : st.models.find? (fun m => m.id = st.activeId) with
        | none => rfl
        | some p =>
          show (if n.provider = "default" ∧ p.isCustom = true ∧ p.provider ≠ ""
                then some p else none) = none
          rw [if_neg]
          intro hcond
          exact hno ⟨n, p, hn, hp, hcond.1, hcond.2.1, hcond.2.2⟩
    simp [setActive, hc]

/-- Claim C6 amended: for setActive(id) with id equal to the current
activeId, provided the entry matching activeId is not a custom entry
with provider "default", the operation makes no credential call,
removes nothing, and only reassigns activeId to its current value. -/
theorem C6_self_setActive (kms : KmsCall → Bool) (st : ModelState)
    (h : ∀ m ∈ st.models, m.id = st.activeId →
        ¬(m.provider = "default" ∧ m.isCustom = true)) :
    setActive kms st st.activeId
      = { state := { models := st.models, activeId := st.activeId },
          calls := [], ok := true } := by
  have hc : cascadeTarget st st.activeId = none := by
    unfold cascadeTarget
    cases hf : st.models.find? (fun m => m.id = st.activeId) with
    | none => rfl
    | some p =>
      have hmem := List.mem_of_find?_eq_some hf
      have hpred := List.find?_some hf
      have hid : p.id = st.activeId := by simpa using hpred
      show (if p.provider = "default" ∧ p.isCustom = true ∧ p.provider ≠ ""
            then some p else none) = none
      rw [if_neg]
      intro hcond
      exact h p hmem hid ⟨hcond.1, hcond.2.1⟩
  simp [setActive, hc]



/-- Witness for C4 at the cascade scenario of spec section 8:
setActive("default") from the custom gpt profile deletes the openai
credential once and leaves only the default entry, active. -/
theorem C4_witness :
    (setActive kmsAccept stateGpt "default").calls = [KmsCall.delete "openai"]
      ∧ (setActive kmsAccept stateGpt "default").state
          = { models := DEFAULT_MODELS, activeId := "default" } := by
  have h := (C4_setActive_cases kmsAccept stateGpt "default").1
    { id := "default", name := "default", provider := "default",
      requiresApiKey := false, isCustom := false, apiKey := none }
    gptStored (by decide) (by decide) (by decide) (by decide) (by decide)
  refine ⟨h.1, ?_⟩
  rw [(h.2 (by decide)).1]
  decide

/-- Counterexample to C6 as stated: with a single custom entry whose
provider is the sentinel "default" being active, setActive(activeId)
does trigger the cascade: it makes a deleteAPIKey call and removes the
entry, so the claim that no cascade can trigger when id equals
activeId is false on the code. -/
theorem C6_counterexample :
    (setActive kmsAccept stateSelfCascade "x").calls = [KmsCall.delete "default"]
      ∧ (setActive kmsAccept stateSelfCascade "x").state.models = []
      ∧ stateSelfCascade.activeId = "x" := by decide

/-- Witness for amended C6: on the initial state, setActive of the
current activeId "default" is a pure no-op reassignment. -/
theorem C6_witness :
    setActive kmsAccept initialState "default"
      = { state := { models := initialState.models, activeId := "default" },
          calls := [], ok := true } :=
  C6_self_setActive kmsAccept initialState (by decide)

/-- Claim C7: for every input profile and starting state, a
successful addModel appends exactly one entry, namely the input with
its apiKey field removed and isCustom set to true, leaves all existing
entries unchanged, and unconditionally sets activeId to the new
profile id. -/
theorem C7_addModel_append (kms : KmsCall → Bool) (st : ModelState) (model : Model)
    (h : (addModel kms st model).ok = true) :
    (addModel kms st model).state
      = { models := st.models ++ [{ stripApiKey model with isCustom := true }],
          activeId := model.id } := by
  cases hk : model.apiKey with
  | none => simp [addModel, hk]
  | some key =>
    by_cases hc : key ≠ "" ∧ model.provider ≠ ""
    · by_cases hkms : kms (KmsCall.store model.provider key) = true
      · simp [addModel, hk, hc, hkms]
      · simp [addModel, hk, hc, hkms] at h
    · simp [addModel, hk, hc]

/-- Witness for C7 at the end-to-end scenario of spec section 8:
adding the gpt profile appends its stored form and makes it active. -/
theorem C7_witness :
    (addModel kmsAccept initialState gptModel).state
      = { models := initialState.models ++ [gptStored], activeId := "gpt" } := by
  rw [C7_addModel_append kmsAccept initialState gptModel (by decide)]
  decide

/-- Claim C8: updateModel makes a credential call iff the updates
object contains the apiKey key (presence, not truthiness) and
updates.provider is set; when made, the call is storeAPIKey of the
provider and key when the key value is truthy and deleteAPIKey of the
provider otherwise. -/
theorem C8_updateModel_calls (kms : KmsCall → Bool) (st : ModelState) (id : String)
    (u : ModelUpdates) :
    ((updateModel kms st id u).calls ≠ []
        ↔ u.apiKey.isSome = true ∧ ∃ p, u.provider = some p ∧ p ≠ "")
    ∧ (∀ key p, u.apiKey = some key → u.provider = some p → p ≠ "" →
        (updateModel kms st id u).calls
          = [if key ≠ "" then KmsCall.store p key else KmsCall.delete p]) := by
  constructor
  · cases hk : u.apiKey with
    | none => simp [updateModel, hk]
    | some key =>
      cases hp : u.provider with
      | none => simp [updateModel, hk, hp]
      | some p =>
        by_cases hc : p ≠ ""
        · by_cases hkey : key = ""
          · by_cases hkms : kms (KmsCall.delete p) = true
            · simp [updateModel, hk, hp, hc, hkey, hkms]
            · simp [updateModel, hk, hp, hc, hkey, hkms]
          · by_cases hkms : kms (KmsCall.store p key) = true
            · simp [updateModel, hk, hp, hc, hkey, hkms]
            · simp [updateModel, hk, hp, hc, hkey, hkms]
        · simp [updateModel, hk, hp, hc]
  · intro key p hk hp hc
    by_cases hkey : key = ""
    · by_cases hkms : kms (KmsCall.delete p) = true
      · simp [updateModel, hk, hp, hc, hkey, hkms]
      · simp [updateModel, hk, hp, hc, hkey, hkms]
    · by_cases hkms : kms (KmsCall.store p key) = true
      · simp [updateModel, hk, hp, hc, hkey, hkms]
      · simp [updateModel, hk, hp, hc, hkey, hkms]

/-- Witness for C8: updating the default entry with provider openai
and key sk-123 makes exactly the storeAPIKey call. -/
theorem C8_witness :
    (updateModel kmsAccept initialState "default" leakUpdates).calls
      = [KmsCall.store "openai" "sk-123"] :=
  (((C8_updateModel_calls kmsAccept initialState "default" leakUpdates).2
    "sk-123" "openai" (by decide) (by decide) (by decide)).trans (by decide))

/-- Claim C10: when the id matches no entry, updateModel leaves
models and activeId unchanged, yet still performs the credential side
effect dictated by the updates object (its rejection propagated) even
though no stored entry is affected. -/
theorem C10_updateModel_unmatched (kms : KmsCall → Bool) (st : ModelState) (id : String)
    (u : ModelUpdates) (h : ∀ m ∈ st.models, m.id ≠ id) :
    (updateModel kms st id u).state = st
    ∧ ((updateModel kms st id u).calls ≠ []
        ↔ u.apiKey.isSome = true ∧ ∃ p, u.provider = some p ∧ p ≠ "")
    ∧ ((updateModel kms st id u).ok = false
        ↔ ∃ c ∈ (updateModel kms st id u).calls, kms c = false) := by
  have h2 : ∀ m ∈ st.models, (if m.id = id then applyUpdates m u else m) = m := by
    intro m hm
    simp [h m hm]
  have hmap : st.models.map (fun m => if m.id = id then applyUpdates m u else m)
      = st.models := by
    rw [List.map_congr_left h2]
    simp
  cases hk : u.apiKey with
  | none => simp [updateModel, hk, hmap]
  | some key =>
    cases hp : u.provider with
    | none => simp [updateModel, hk, hp, hmap]
    | some p =>
      by_cases hc : p ≠ ""
      · by_cases hkey : key = ""
        · by_cases hkms : kms (KmsCall.delete p) = true
          · simp [updateModel, hk, hp, hc, hkey, hkms, hmap]
          · simp [updateModel, hk, hp, hc, hkey, hkms, hmap]
        · by_cases hkms : kms (KmsCall.store p key) = true
          · simp [updateModel, hk, hp, hc, hkey, hkms, hmap]
          · simp [updateModel, hk, hp, hc, hkey, hkms, hmap]
      · simp [updateModel, hk, hp, hc, hmap]

/-- Witness for C10: updating a nonexistent id with provider and
apiKey leaves the initial state unchanged while still attempting a
credential call. -/
theorem C10_witness :
    (updateModel kmsAccept initialState "ghost" leakUpdates).state = initialState
      ∧ (updateModel kmsAccept initialState "ghost" leakUpdates).calls ≠ [] := by
  have h := C10_updateModel_unmatched kmsAccept initialState "ghost" leakUpdates (by decide)
  exact ⟨h.1, h.2.1.mpr ⟨by decide, ⟨"openai", rfl, by decide⟩⟩⟩



/-- Helper: when the cascade fires, the returned entry is the one
found for the current activeId, it is custom, and its provider is
nonempty. -/
theorem cascadeTarget_prev (st : ModelState) (id : String) (p : StoredModel)
    (h : cascadeTarget st id = some p) :
    st.models.find? (fun m => m.id = st.activeId) = some p
      ∧ p.isCustom = true ∧ p.provider ≠ "" := by
  unfold cascadeTarget at h
  cases hn : st.models.find? (fun m => m.id = id) with
  | none => simp [hn] at h
  | some n =>
    cases hp : st.models.find? (fun m => m.id = st.activeId) with
    | none => simp [hn, hp] at h
    | some q =>
      simp only [hn, hp] at h
      split at h
      case isTrue hcond =>
        injection h with heq
        subst heq
        exact ⟨rfl, hcond.2.1, hcond.2.2⟩
      case isFalse => cases h

/-- Claim C5 amended: starting from a state satisfying the activeId
invariant, addModel preserves it unconditionally; updateModel
preserves it when the updates object does not change ids; setActive
preserves it when the requested id matches some entry and, if the
discard cascade fires, differs from the current activeId; removeModel
preserves it when the removed id differs from the current activeId. -/
theorem C5_amended (kms : KmsCall → Bool) (st : ModelState) (hinv : activeIdOk st) :
    (∀ model, activeIdOk (addModel kms st model).state)
    ∧ (∀ id u, u.id = none → activeIdOk (updateModel kms st id u).state)
    ∧ (∀ id, (st.models.find? (fun m => m.id = id)).isSome = true →
        (cascadeTarget st id = none ∨ id ≠ st.activeId) →
        activeIdOk (setActive kms st id).state)
    ∧ (∀ id, id ≠ st.activeId → activeIdOk (removeModel kms st id).state) := by
  refine ⟨fun model => ?_, fun id u hu => ?_, fun id hfind hside => ?_, fun id hne => ?_⟩
  · have hcommit : activeIdOk
        { models := st.models ++ [{ stripApiKey model with isCustom := true }],
          activeId := model.id } :=
      Or.inl ⟨{ stripApiKey model with isCustom := true }, by simp, rfl⟩
    cases hk : model.apiKey with
    | none => simpa [addModel, hk] using hcommit
    | some key =>
      by_cases hc : key ≠ "" ∧ model.provider ≠ ""
      · by_cases hkms : kms (KmsCall.store model.provider key) = true
        · simpa [addModel, hk, hc, hkms] using hcommit
        · simpa [addModel, hk, hc, hkms] using hinv
      · simpa [addModel, hk, hc] using hcommit
  · have hfid : ∀ m : StoredModel, (if m.id = id then applyUpdates m u else m).id = m.id := by
      intro m
      by_cases hmid : m.id = id
      · simp [hmid, applyUpdates, hu]
      · simp [hmid]
    have hcommit : activeIdOk
        { models := st.models.map (fun m => if m.id = id then applyUpdates m u else m),
          activeId := st.activeId } := by
      rcases hinv with ⟨m, hm, hid⟩ | ⟨hnil, hid⟩
      · exact Or.inl ⟨_, List.mem_map_of_mem _ hm, by rw [hfid m]; exact hid⟩
      · exact Or.inr ⟨by simp [hnil], hid⟩
    cases hk : u.apiKey with
    | none => simpa [updateModel, hk] using hcommit
    | some key =>
      cases hp : u.provider with
      | none => simpa [updateModel, hk, hp] using hcommit
      | some p =>
        by_cases hc : p ≠ ""
        · by_cases hkey : key = ""
          · by_cases hkms : kms (KmsCall.delete p) = true
            · simpa [updateModel, hk, hp, hc, hkey, hkms] using hcommit
            · simpa [updateModel, hk, hp, hc, hkey, hkms] using hinv
          · by_cases hkms : kms (KmsCall.store p key) = true
            · simpa [updateModel, hk, hp, hc, hkey, hkms] using hcommit
            · simpa [updateModel, hk, hp, hc, hkey, hkms] using hinv
        · simpa [updateModel, hk, hp, hc] using hcommit
  · obtain ⟨n, hn⟩ := Option.isSome_iff_exists.mp hfind
    have hnmem := List.mem_of_find?_eq_some hn
    have hnid : n.id = id := by simpa using List.find?_some hn
    cases hc : cascadeTarget st id with
    | none =>
      have : activeIdOk { models := st.models, activeId := id } :=
        Or.inl ⟨n, hnmem, hnid⟩
      simpa [setActive, hc] using this
    | some p =>
      obtain ⟨hp, _, _⟩ := cascadeTarget_prev st id p hc
      have hpid : p.id = st.activeId := by simpa using List.find?_some hp
      have hne : id ≠ st.activeId := by
        rcases hside with h0 | h0
        · rw [h0] at hc; cases hc
        · exact h0
      by_cases hkms : kms (KmsCall.delete p.provider) = true
      · have hmemfil : n ∈ st.models.filter (fun m => m.id ≠ p.id) := by
          rw [List.mem_filter]
          refine ⟨hnmem, ?_⟩
          have : n.id ≠ p.id := by rw [hnid, hpid]; exact hne
          simpa using this
        have : activeIdOk
            { models := st.models.filter (fun m => m.id ≠ p.id), activeId := id } :=
          Or.inl ⟨n, hmemfil, hnid⟩
        simpa [setActive, hc, hkms] using this
      · simpa [setActive, hc, hkms] using hinv
  · have hcommit : activeIdOk
        { models := st.models.filter (fun m => m.id ≠ id), activeId := st.activeId } := by
      rcases hinv with ⟨m, hm, hid⟩ | ⟨hnil, hid⟩
      · refine Or.inl ⟨m, ?_, hid⟩
        rw [List.mem_filter]
        refine ⟨hm, ?_⟩
        have : m.id ≠ id := by rw [hid]; exact Ne.symm hne
        simpa using this
      · exact Or.inr ⟨by simp [hnil], hid⟩
    have hne2 : ¬(st.activeId = id) := fun h0 => hne h0.symm
    cases hf : st.models.find? (fun m => m.id = id) with
    | none => simpa [removeModel, hf, hne2] using hcommit
    | some m =>
      by_cases hc : m.provider ≠ ""
      · by_cases hkms : kms (KmsCall.delete m.provider) = true
        · simpa [removeModel, hf, hc, hkms, hne2] using hcommit
        · simpa [removeModel, hf, hc, hkms] using hinv
      · simpa [removeModel, hf, hc, hne2] using hcommit

/-- Counterexample to C5 as stated: the initial state satisfies the
activeId invariant, but setActive of an id matching no entry sets
activeId to that id and breaks the invariant. -/
theorem C5_counterexample :
    activeIdOk initialState
      ∧ ¬ activeIdOk (setActive kmsAccept initialState "nope").state := by decide

/-- Witness for amended C5: the cascade scenario state satisfies all
side conditions for setActive("default") and the invariant holds
afterwards. -/
theorem C5_witness :
    activeIdOk (setActive kmsAccept stateGpt "default").state :=
  (C5_amended kmsAccept stateGpt (by decide)).2.2.1 "default" (by decide)
    (Or.inr (by decide))



/-- Claim C9 amended: starting from a state with pairwise distinct
ids, setActive and removeModel preserve uniqueness unconditionally;
addModel preserves it when the added profile id does not already occur
in models; updateModel preserves it when the updates object does not
change ids. -/
theorem C9_amended (kms : KmsCall → Bool) (st : ModelState) (hinv : uniqueIds st) :
    (∀ model, (∀ m ∈ st.models, m.id ≠ model.id) →
        uniqueIds (addModel kms st model).state)
    ∧ (∀ id u, u.id = none → uniqueIds (updateModel kms st id u).state)
    ∧ (∀ id, uniqueIds (setActive kms st id).state)
    ∧ (∀ id, uniqueIds (removeModel kms st id).state) := by
  refine ⟨fun model hfresh => ?_, fun id u hu => ?_, fun id => ?_, fun id => ?_⟩
  · have hcommit : uniqueIds
        { models := st.models ++ [{ stripApiKey model with isCustom := true }],
          activeId := model.id } := by
      unfold uniqueIds at hinv ⊢
      simp only [List.map_append, List.map_cons, List.map_nil]
      rw [List.nodup_append]
      refine ⟨hinv, List.nodup_singleton _, ?_⟩
      intro a ha hb
      simp only [List.mem_map] at ha
      obtain ⟨m, hm, rfl⟩ := ha
      simp only [List.mem_singleton] at hb
      exact hfresh m hm hb
    cases hk : model.apiKey with
    | none => simpa [addModel, hk] using hcommit
    | some key =>
      by_cases hc : key ≠ "" ∧ model.provider ≠ ""
      · by_cases hkms : kms (KmsCall.store model.provider key) = true
        · simpa [addModel, hk, hc, hkms] using hcommit
        · simpa [addModel, hk, hc, hkms] using hinv
      · simpa [addModel, hk, hc] using hcommit
  · have hcommit : uniqueIds
        { models := st.models.map (fun m => if m.id = id then applyUpdates m u else m),
          activeId := st.activeId } := by
      unfold uniqueIds at hinv ⊢
      have hmapid : (st.models.map
            (fun m => if m.id = id then applyUpdates m u else m)).map (fun m => m.id)
          = st.models.map (fun m => m.id) := by
        rw [List.map_map]
        apply List.map_congr_left
        intro m hm
        by_cases hmid : m.id = id
        · simp [Function.comp, hmid, applyUpdates, hu]
        · simp [Function.comp, hmid]
      rw [hmapid]
      exact hinv
    cases hk : u.apiKey with
    | none => simpa [updateModel, hk] using hcommit
    | some key =>
      cases hp : u.provider with
      | none => simpa [updateModel, hk, hp] using hcommit
      | some p =>
        by_cases hc : p ≠ ""
        · by_cases hkey : key = ""
          · by_cases hkms : kms (KmsCall.delete p) = true
            · simpa [updateModel, hk, hp, hc, hkey, hkms] using hcommit
            · simpa [updateModel, hk, hp, hc, hkey, hkms] using hinv
          · by_cases hkms : kms (KmsCall.store p key) = true
            · simpa [updateModel, hk, hp, hc, hkey, hkms] using hcommit
            · simpa [updateModel, hk, hp, hc, hkey, hkms] using hinv
        · simpa [updateModel, hk, hp, hc] using hcommit
  · cases hc : cascadeTarget st id with
    | none =>
      have : uniqueIds { models := st.models, activeId := id } := hinv
      simpa [setActive, hc] using this
    | some p =>
      by_cases hkms : kms (KmsCall.delete p.provider) = true
      · have : uniqueIds
            { models := st.models.filter (fun m => m.id ≠ p.id), activeId := id } := by
          unfold uniqueIds at hinv ⊢
          exact hinv.sublist ((List.filter_sublist _).map _)
        simpa [setActive, hc, hkms] using this
      · simpa [setActive, hc, hkms] using hinv
  · have hcommit : ∀ s : String, uniqueIds
        { models := st.models.filter (fun m => m.id ≠ id), activeId := s } := by
      intro s
      unfold uniqueIds at hinv ⊢
      exact hinv.sublist ((List.filter_sublist _).map _)
    cases hf : st.models.find? (fun m => m.id = id) with
    | none => simpa [removeModel, hf] using hcommit _
    | some m =>
      by_cases hc : m.provider ≠ ""
      · by_cases hkms : kms (KmsCall.delete m.provider) = true
        · simpa [removeModel, hf, hc, hkms] using hcommit _
        · simpa [removeModel, hf, hc, hkms] using hinv
      · simpa [removeModel, hf, hc] using hcommit _

/-- Counterexample to C9 as stated: the initial state has unique
ids, but addModel of a profile whose id collides with the built-in
default appends it anyway, yielding two entries with id "default". -/
theorem C9_counterexample :
    uniqueIds initialState
      ∧ ¬ uniqueIds (addModel kmsAccept initialState dupModel).state := by decide

/-- Witness for amended C9: adding the fresh gpt profile to the
initial state keeps all ids distinct. -/
theorem C9_witness :
    uniqueIds (addModel kmsAccept initialState gptModel).state :=
  (C9_amended kmsAccept initialState (by decide)).1 gptModel (by decide)


end ModelStore
